import Mathlib

/-
  Verification development for the file_visualization repository.

  The repository's core is a streaming-response reconciliation and retry
  layer around a generative-AI upstream.  Below, each Python source file
  that the verified claims touch is shallowly embedded as a Lean
  namespace: pure fragments become Lean functions, the stateful
  generator loops become explicit state-passing folds, wall-clock time
  becomes an explicit integer-millisecond timestamp supplied with each
  upstream chunk, and fallible upstream calls become `Except`-valued
  behaviour parameters.  Machine floats `n * 1.3` from the source are
  modelled in exact arithmetic as `n * 13 / 10` (the claims under
  consideration never depend on float rounding).
-/

namespace Py

/-- Word counting for `len(s.split())`: walks the character list and
counts maximal non-whitespace runs (`inWord` says whether the previous
character was part of a word). -/
def wordCountAux : List Char → Bool → Nat
  | [], _ => 0
  | c :: rest, inWord =>
    if c.isWhitespace then wordCountAux rest false
    else (if inWord then 0 else 1) + wordCountAux rest true

/-- Python `len(s.split())`: number of maximal non-whitespace runs. -/
def wordCount (s : String) : Nat :=
  wordCountAux s.data false

/-- `max(1, int(len(s.split()) * 1.3))` in exact arithmetic. -/
def approxTokens (s : String) : Nat :=
  max 1 (wordCount s * 13 / 10)

/-- Is the first list a prefix of the second? -/
def isPrefixChars : List Char → List Char → Bool
  | [], _ => true
  | _ :: _, [] => false
  | a :: as, b :: bs => a = b && isPrefixChars as bs

def containsChars (pat : List Char) : List Char → Bool
  | [] => isPrefixChars pat []
  | c :: rest => isPrefixChars pat (c :: rest) || containsChars pat rest

/-- Python `pat in s` (substring containment). -/
def strContains (s pat : String) : Bool :=
  containsChars pat.data s.data

/-- Python `s.startswith(pre)`. -/
def pyStartsWith (s pre : String) : Bool :=
  isPrefixChars pre.data s.data

/-- Python slicing `s[:n]` (character count). -/
def strTake (s : String) (n : Nat) : String :=
  ⟨s.data.take n⟩

/-- Concatenation of a list of strings, as produced by Python string
accumulation (`html += chunk` loops, `"".join(...)`). -/
def strConcat : List String → String
  | [] => ""
  | s :: l => s ++ strConcat l

/-- Python truthiness of an optional string: `None` and `""` are falsy. -/
def falsyOpt : Option String → Bool
  | none => true
  | some s => s = ""

end Py

/-
  helper_function.py — `format_stream_event` (an identical copy also sits
  at the top of api/process-gemini-stream.py, lines 11-21; one embedding
  covers both).  JSON values are modelled flat (string/int/bool/null
  payloads), which covers every payload this function is given a claim
  about; `json.dumps` keeps Python's default separators.
-/

namespace HelperFunction

inductive JValue where
  | jstr (s : String)
  | jnum (n : Int)
  | jbool (b : Bool)
  | jnull
deriving Repr, DecidableEq

def jsonDumpsValue : JValue → String
  | .jstr s => "\"" ++ s ++ "\""
  | .jnum n => toString n
  | .jbool b => if b then "true" else "false"
  | .jnull => "null"

def jsonDumpsEntry (kv : String × JValue) : String :=
  "\"" ++ kv.1 ++ "\": " ++ jsonDumpsValue kv.2

/-- `json.dumps` on a dict, Python insertion order preserved. -/
def jsonDumps (d : List (String × JValue)) : String :=
  "\x7b" ++ Py.strConcat (List.intersperse ", " (d.map jsonDumpsEntry)) ++ "\x7d"

/-- Python `dict.update`: existing keys overwritten in place, new keys
appended in insertion order. -/
def dictUpdate (base upd : List (String × JValue)) : List (String × JValue) :=
  (base.map (fun kv =>
    match upd.find? (fun kv2 => kv2.1 = kv.1) with
    | some kv2 => (kv.1, kv2.2)
    | none => kv))
  ++ upd.filter (fun kv2 => ¬ base.any (fun kv => kv.1 = kv2.1))

/-- `data if data else {}`: `None` and the empty dict are falsy. -/
def truthyData : Option (List (String × JValue)) → List (String × JValue)
  | none => []
  | some d => if d = [] then [] else d

/-- helper_function.py lines 76-86.  The local `event` dict is built
exactly as in the source (insert `"type"`, then `update` with `data`)
but, as in the source, the returned f-string serializes `data` alone. -/
def format_stream_event (event_type : String)
    (data : Option (List (String × JValue))) : String :=
  let event : List (String × JValue) :=
    dictUpdate [("type", JValue.jstr event_type)] (truthyData data)
  let _ := event
  "event: " ++ event_type ++ "\ndata: " ++ jsonDumps (truthyData data) ++ "\n\n"

end HelperFunction

/-
  server.py — the `/api/process` endpoint.  The embedded part is the
  `generate` retry loop (lines 176-374): upstream attempts are a
  behaviour function `attempt : Nat → AttemptResult`, random jitter is an
  input sequence, and the emitted SSE events plus the `time.sleep` calls
  are recorded as an ordered action trace.
-/

namespace Server

/-- Events written by `generate` (payload fields kept where a claim
distinguishes events by them). -/
inductive SEvent where
  | thinkingStart
  | thinkingUpdate (content : String)
  | thinkingEnd
  | content (text : String)
  | complete
  | info (message : String)
  | error_ (message : String)
deriving Repr, DecidableEq

/-- One element of the execution trace: an SSE event write or a
`time.sleep` of the given duration.  Durations and jitter are modelled
in integer milliseconds (an exact rescaling of the source's
float-seconds: `base_delay = 1 s = 1000 ms`, jitter drawn from
`[0, 0.5 s] = [0, 500] ms`). -/
inductive Action where
  | emit (e : SEvent)
  | sleep (d : ℤ)
deriving Repr, DecidableEq

/-- An exception escaping one generation attempt: its message string and
the result of the source's attempt to parse the brace-delimited JSON
fragment of the message (`error_data.get('error',{}).get('type')`). -/
structure UpstreamError where
  message : String
  jsonType : Option String
deriving Repr, DecidableEq

/-- Outcome of one generation attempt: the SSE events the streaming (or
non-streaming fallback) body yields before its final `complete` event,
or the exception that escaped. -/
inductive AttemptResult where
  | ok (body : List SEvent)
  | err (e : UpstreamError)
deriving Repr, DecidableEq

def maxRetries : Nat := 5

/-- `base_delay = 1` second, in milliseconds. -/
def baseDelay : ℤ := 1000

/-- server.py line 358: the overloaded-error classification. -/
def isOverloaded (e : UpstreamError) : Bool :=
  Py.strContains e.message "Overloaded"
  || e.jsonType = some "overloaded_error"
  || Py.pyStartsWith e.message "Status code 529"

/-- server.py line 362: `base_delay * (2 ** retry_attempt) + random.uniform(0, 0.5)`,
in milliseconds. -/
def delayFor (retryAttempt : Nat) (jitter : ℤ) : ℤ :=
  baseDelay * 2 ^ retryAttempt + jitter

/-- server.py line 366: the retry-notice message (`int(delay)` is the
float-to-int truncation of the delay in seconds; delays here are
nonnegative milliseconds, so this is division by 1000). -/
def retryNoticeMsg (delay : ℤ) (retryAttempt : Nat) : String :=
  "Service is busy. Retrying in " ++ toString (delay / 1000) ++
    " seconds (attempt " ++ toString (retryAttempt + 1) ++ "/" ++
    toString maxRetries ++ ")..."

/-- server.py lines 186-374: the `for retry_attempt in range(max_retries + 1)`
loop.  Returns the action trace together with the number of generation
attempts actually issued.  `fuel` is the number of loop iterations left
(`maxRetries + 1 - retryAttempt`). -/
def generateLoop (attempt : Nat → AttemptResult) (jitter : Nat → ℤ) :
    Nat → Nat → List Action × Nat
  | _, 0 => ([], 0)
  | retryAttempt, fuel + 1 =>
    match attempt retryAttempt with
    | .ok body => (body.map Action.emit ++ [Action.emit SEvent.complete], 1)
    | .err e =>
      if isOverloaded e ∧ retryAttempt < maxRetries then
        let d := delayFor retryAttempt (jitter retryAttempt)
        let rest := generateLoop attempt jitter (retryAttempt + 1) fuel
        (Action.emit (SEvent.info (retryNoticeMsg d retryAttempt)) ::
           Action.sleep d :: rest.1,
         rest.2 + 1)
      else
        ([Action.emit (SEvent.error_ ("API call failed: " ++ e.message))], 1)

def generateRun (attempt : Nat → AttemptResult) (jitter : Nat → ℤ) :
    List Action × Nat :=
  generateLoop attempt jitter 0 (maxRetries + 1)

/-- The action trace of one request. -/
def generate (attempt : Nat → AttemptResult) (jitter : Nat → ℤ) : List Action :=
  (generateRun attempt jitter).1

/-- How many generation attempts the loop issued. -/
def attemptsMade (attempt : Nat → AttemptResult) (jitter : Nat → ℤ) : Nat :=
  (generateRun attempt jitter).2

/-- The durations of the `time.sleep` calls, in trace order. -/
def sleepDurations (trace : List Action) : List ℤ :=
  trace.filterMap (fun a =>
    match a with
    | .sleep d => some d
    | _ => none)

/-- Is this action the emission of a retry-notice info event? -/
def isRetryNotice : Action → Bool
  | .emit (.info m) => Py.pyStartsWith m "Service is busy"
  | _ => false

/-- server.py lines 163-164, the `/api/process` validation gate:
`if not api_key or not content: return 400` runs before
`create_anthropic_client`.  Result: `(status, client constructor was
invoked)`, where status 200 stands for the request proceeding to client
creation and streaming. -/
def processFileGate (api_key content : Option String) : Nat × Bool :=
  if Py.falsyOpt api_key || Py.falsyOpt content then (400, false)
  else (200, true)

end Server

/-
  api/gemini-stream-edge.py — `process_stream_request` (lines 70-334).
  The function accumulates its SSE events in a Python list `events`; the
  embedding returns the corresponding event list.  The upstream is a
  behaviour record: the streaming call either completes with a chunk
  list or raises after a (possibly empty) chunk prefix, and the
  non-streaming fallback call either returns a response object or
  raises.  Response/chunk objects carry an optional `text` attribute and
  a `parts` list (a part without a `text` attribute contributes nothing,
  as the per-chunk try/except swallows the access error).
-/

namespace GeminiStreamEdge

structure EPart where
  text : Option String
deriving Repr, DecidableEq

/-- A streaming chunk or a non-streaming response object.  `text = none`
models an object without a `text` attribute; `parts = []` covers both a
missing and an empty (falsy) `parts` attribute, which the source treats
identically. -/
structure Chunk where
  text : Option String
  parts : List EPart
deriving Repr, DecidableEq

/-- Lines 176-186 (and the identical pattern at 274-281 for the
fallback response): `text` attribute first, else concatenate the texts
of `parts`. -/
def extractChunkText (c : Chunk) : String :=
  match c.text with
  | some t => t
  | none => Py.strConcat (c.parts.map (fun p => p.text.getD ""))

inductive EEvent where
  | error_ (msg : String)
  | streamStart
  | status (msg : String)
  | contentBlockDelta (text : String)
  | keepalive
  | content (chunk : String)
  | messageComplete (message html : String) (inputTokens outputTokens : Nat)
deriving Repr, DecidableEq

/-- The streaming upstream call: either the chunk iteration completes,
or it raises the given error after yielding the listed chunks. -/
inductive StreamOutcome where
  | ok (chunks : List Chunk)
  | failAfter (chunks : List Chunk) (err : String)
deriving Repr, DecidableEq

/-- Upstream behaviour for one request.  `clientError = some e` models
`genai.configure`/`GenerativeModel` raising during client creation. -/
structure Behavior where
  clientError : Option String
  stream : StreamOutcome
  fallback : Except String Chunk
deriving Repr

/-- Lines 172-207, the chunk loop: skip empty extractions, append a
`content_block_delta` per non-empty extraction, and a `keepalive` after
every 15th received chunk (the `continue` for an empty chunk also skips
that check, as in the source).  Arguments: remaining chunks, number of
chunks received so far, accumulator.  Returns the events appended and
the final accumulator. -/
def processChunks : List Chunk → Nat → String → List EEvent × String
  | [], _, acc => ([], acc)
  | c :: cs, n, acc =>
    let n' := n + 1
    let t := extractChunkText c
    if t = "" then processChunks cs n' acc
    else
      let evs :=
        EEvent.contentBlockDelta t ::
          (if n' % 15 = 0 then [EEvent.keepalive] else [])
      let rest := processChunks cs n' (acc ++ t)
      (evs ++ rest.1, rest.2)

/-- The `message_complete` event of lines 217-228 / 247-258 / 298-309
(identical shape, different `message`).  `processing_time` is elided:
no claim mentions it. -/
def completeEvent (message prompt html : String) : EEvent :=
  EEvent.messageComplete message html (Py.approxTokens prompt) (Py.approxTokens html)

/-- `process_stream_request`, given the constructed prompt and the
upstream behaviour.  `GEMINI_AVAILABLE` is taken as true (the package
check at line 90 concerns the deployment, not a request). -/
def process_stream_request (b : Behavior) (prompt : String) : List EEvent :=
  match b.clientError with
  | some e =>
    [EEvent.error_ ("Failed to create Gemini client. Check your API key. Error: " ++ e)]
  | none =>
    let pre := [EEvent.streamStart, EEvent.status "Model loaded, starting generation"]
    match b.stream with
    | .ok chunks =>
      let r := processChunks chunks 0 ""
      pre ++ r.1 ++ [completeEvent "Generation complete" prompt r.2]
    | .failAfter chunks _ =>
      let r := processChunks chunks 0 ""
      if r.2 ≠ "" then
        pre ++ r.1 ++ [completeEvent "Generation partially complete" prompt r.2]
      else
        pre ++ r.1 ++ [EEvent.status "Trying non-streaming fallback"] ++
          match b.fallback with
          | .ok resp =>
            let fh := extractChunkText resp
            if fh ≠ "" then
              [EEvent.content fh, completeEvent "Generation complete (fallback)" prompt fh]
            else
              [EEvent.error_ "No content from non-streaming fallback"]
          | .error fe =>
            [EEvent.error_ ("Generation failed: " ++ fe)]

def isCompleteEvent : EEvent → Bool
  | .messageComplete _ _ _ _ => true
  | _ => false

def isErrorEvent : EEvent → Bool
  | .error_ _ => true
  | _ => false

/-- Count the `message_complete` events of a trace. -/
def countComplete (evs : List EEvent) : Nat :=
  evs.countP isCompleteEvent

/-- Count the terminal `error` events of a trace. -/
def countError (evs : List EEvent) : Nat :=
  evs.countP isErrorEvent

end GeminiStreamEdge

/-
  api/process-gemini-stream.py — `process_stream_request` (lines
  143-476) and the SSE generator `gemini_stream_generator` it returns
  (lines 202-465), consumed by `Handler.do_POST` (lines 72-134).
  Wall-clock time is modelled by attaching to every streaming chunk the
  value `time.time()` reads during its loop iteration (one reading per
  iteration; the source reads it twice a few lines apart).  Event
  payloads keep what the claims inspect (fragment text, assembled html,
  output-token estimate); `session_id`/`chunk_id` correlation strings
  and timestamps inside payloads are elided.
-/

namespace ProcessGeminiStream

/-- A streaming chunk: `chunk.text if hasattr(chunk, 'text') else ""`
(line 255) plus its arrival time, in integer milliseconds (an exact
rescaling of the source's float seconds: the 3 s keepalive cadence
becomes 3000 ms and the 0.2 s flush threshold 200 ms). -/
structure TChunk where
  text : Option String
  time : ℤ
deriving Repr, DecidableEq

/-- The event vocabulary of this endpoint.  `streamEnd` is part of the
spec's event vocabulary and is included so its absence can be stated;
the source never emits it.  `contentComplete` is the `content` event of
lines 404-415 whose payload carries `"type": "message_complete"`, the
assembled html and the usage record. -/
inductive GEvent where
  | streamStart
  | streamEnd
  | keepalive
  | content (chunk : String)
  | contentComplete (html : String) (outputTokens : Nat)
  | error_ (msg : String)
deriving Repr, DecidableEq

/-- A non-streaming response object for the synchronous fallback (lines
344-355): `text` attribute first, else concatenate part texts. -/
structure SyncResp where
  text : Option String
  parts : List GeminiStreamEdge.EPart
deriving Repr, DecidableEq

def extractSync (r : SyncResp) : String :=
  match r.text with
  | some t => t
  | none => Py.strConcat (r.parts.map (fun p => p.text.getD ""))

/-- The streaming call of line 240: the chunk iteration either
completes or raises after yielding the listed chunks. -/
inductive UpStream where
  | ok (chunks : List TChunk)
  | failAfter (chunks : List TChunk) (err : String)
deriving Repr, DecidableEq

/-- Upstream behaviour of one request.  `getModel` is
`client.get_model(GEMINI_MODEL)` (line 212); `syncFallback` is the
non-streaming `model.generate_content` call of line 344. -/
structure Behavior where
  getModel : Except String Unit
  stream : UpStream
  syncFallback : Except String SyncResp
deriving Repr

/-- Loop state of lines 246-250. -/
structure LoopState where
  lastKeepalive : ℤ
  lastYield : ℤ
  hasSent : Bool
  buffer : List String
  html : String
deriving Repr, DecidableEq

/-- One iteration of the chunk loop (lines 253-286). -/
def stepChunk (st : LoopState) (c : TChunk) : List GEvent × LoopState :=
  let t := c.text.getD ""
  let ka := decide (c.time - st.lastKeepalive ≥ 3000)
  let kevs := if ka then [GEvent.keepalive] else []
  let lastKA := if ka then c.time else st.lastKeepalive
  if t = "" then (kevs, { st with lastKeepalive := lastKA })
  else
    let buffer' := st.buffer ++ [t]
    let html' := st.html ++ t
    if c.time - st.lastYield ≥ 200 ∨ buffer'.length ≥ 3 then
      (kevs ++ [GEvent.content (Py.strConcat buffer')],
       { lastKeepalive := c.time, lastYield := c.time, hasSent := true,
         buffer := [], html := html' })
    else
      (kevs, { st with lastKeepalive := lastKA, hasSent := true,
                       buffer := buffer', html := html' })

def runChunks : List TChunk → LoopState → List GEvent × LoopState
  | [], st => ([], st)
  | c :: cs, st =>
    let r := stepChunk st c
    let rest := runChunks cs r.2
    (r.1 ++ rest.1, rest.2)

/-- The common shell of the three inline fallback HTML documents (the
source repeats the template at lines 302-321, 367-386 and 422-441 with
only the trailing note differing). -/
def fallbackShell (preview note : String) : String :=
  "<!DOCTYPE html><html lang=\"en\"><head><meta charset=\"UTF-8\">" ++
  "<title>Content Visualization</title></head><body>" ++
  "<h1>Content Visualization</h1><pre>" ++ preview ++ "...</pre><p>" ++
  note ++ "</p></body></html>"

/-- Lines 302-321: fallback when the stream completed without content. -/
def noContentFallbackHtml (truncated : String) : String :=
  fallbackShell (Py.strTake truncated 500) "Note: No content was generated from the API."

/-- Lines 367-386: fallback when the synchronous retry also failed. -/
def syncFailedFallbackHtml (truncated : String) : String :=
  fallbackShell (Py.strTake truncated 500) "Error: API generation failed. Please try again."

/-- Lines 422-441: fallback for a generation error (model acquisition
failure). -/
def generationErrorFallbackHtml (truncated err : String) : String :=
  fallbackShell (Py.strTake truncated 500) ("Error: " ++ err)

def initState (startTime : ℤ) : LoopState :=
  { lastKeepalive := startTime, lastYield := startTime,
    hasSent := false, buffer := [], html := "" }

/-- `gemini_stream_generator` (lines 202-465) as the list of events it
yields for the given upstream behaviour.  The outer `except` of lines
457-465 is unreachable here: every fallible step is already handled by
the inner handlers it models. -/
def geminiStreamGenerator (b : Behavior) (truncated : String)
    (startTime : ℤ) : List GEvent :=
  [GEvent.streamStart, GEvent.keepalive] ++
    match b.getModel with
    | .error e =>
      [GEvent.content (generationErrorFallbackHtml truncated e), GEvent.error_ e]
    | .ok _ =>
      match b.stream with
      | .ok chunks =>
        let r := runChunks chunks (initState startTime)
        let flush :=
          if r.2.buffer ≠ [] then [GEvent.content (Py.strConcat r.2.buffer)] else []
        let noContent := ¬ r.2.hasSent ∨ r.2.html = ""
        let evs2 :=
          if noContent then
            flush ++ [GEvent.content (noContentFallbackHtml truncated)]
          else flush
        let html2 := if noContent then noContentFallbackHtml truncated else r.2.html
        r.1 ++ evs2 ++ [GEvent.contentComplete html2 (Py.approxTokens html2)]
      | .failAfter chunks err =>
        let r := runChunks chunks (initState startTime)
        let evs := r.1 ++ [GEvent.error_ err]
        if r.2.html = "" then
          match b.syncFallback with
          | .ok resp =>
            let h := extractSync resp
            let evs2 := if h ≠ "" then [GEvent.content h] else []
            evs ++ evs2 ++ [GEvent.contentComplete h (Py.approxTokens h)]
          | .error _ =>
            evs ++ [GEvent.content (syncFailedFallbackHtml truncated),
                    GEvent.contentComplete (syncFailedFallbackHtml truncated)
                      (Py.approxTokens (syncFailedFallbackHtml truncated))]
        else
          evs ++ [GEvent.contentComplete r.2.html (Py.approxTokens r.2.html)]

/-- `Handler.do_POST` (lines 99-107): the handler writes its own
`stream_start` event (line 100) before iterating the generator. -/
def doPostEvents (b : Behavior) (truncated : String) (startTime : ℤ) :
    List GEvent :=
  GEvent.streamStart :: geminiStreamGenerator b truncated startTime

def isStartEvent : GEvent → Bool
  | .streamStart => true
  | _ => false

def isEndEvent : GEvent → Bool
  | .streamEnd => true
  | _ => false

def isCompleteEvt : GEvent → Bool
  | .contentComplete _ _ => true
  | _ => false

def countStreamStart (evs : List GEvent) : Nat :=
  evs.countP isStartEvent

def countStreamEnd (evs : List GEvent) : Nat :=
  evs.countP isEndEvent

def countContentComplete (evs : List GEvent) : Nat :=
  evs.countP isCompleteEvt

/-- Lines 148-190, the request gate of `process_stream_request` before
the generator is built: `content`/`source` interchange, the 400 on
empty content, and the `create_gemini_client` call (line 182) that is
attempted for every request passing the content check — there is no
up-front `api_key` check.  `helper_function.create_gemini_client`
always raises on a missing or empty key (it slices and strip-checks the
key before configuring); for other keys the outcome is the behaviour
input `clientOk`.  Result: `(status code, client constructor was
invoked)`, with status 200 meaning the streaming generator is
returned. -/
def streamRequestGate (api_key content source : Option String)
    (clientOk : Bool) : Nat × Bool :=
  let c := if (content.getD "") ≠ "" then content.getD "" else source.getD ""
  if c = "" then (400, false)
  else if Py.falsyOpt api_key || ¬ clientOk then (401, true)
  else (200, true)

end ProcessGeminiStream

/-
  api/process-gemini.py — `process_request` (lines 97-383), the
  non-streaming endpoint.  Two parts are embedded: the request gate
  (lines 108-125), which reads only `content` and never consults
  `source`, and the generation phase (lines 172-352) with its
  `DeadlineExceeded` cascade: one retry with reduced parameters and a
  simplified prompt derived from a 500-character prefix, then a static
  placeholder.  Response/chunk text extraction reuses the
  text-attribute / parts-concatenation pattern already embedded as
  `GeminiStreamEdge.extractChunkText` (lines 199-204 and 263-268 are
  that same pattern).
-/

namespace ApiProcessGemini

structure Request where
  api_key : Option String
  content : Option String
  source : Option String
deriving Repr, DecidableEq

/-- Lines 112-125: `content = data.get('content')` — the `source` field
is never read in this file — then
`if not api_key or not content: return 400`.  Result: status code and,
when accepted, the content that processing continues with. -/
def requestGate (r : Request) : Nat × Option String :=
  let content := r.content
  if Py.falsyOpt r.api_key || Py.falsyOpt content then (400, none)
  else (200, some (content.getD ""))

/-- Outcome of the primary `model.generate_content` call (line 186/192). -/
inductive GenOutcome where
  | ok (resp : GeminiStreamEdge.Chunk)
  | deadline (msg : String)
  | otherErr (msg : String)
deriving Repr, DecidableEq

/-- Upstream behaviour: the primary call and, keyed by the prompt it is
given, the reduced-parameter fallback call of lines 256-259. -/
structure Behavior where
  primary : GenOutcome
  fallbackGen : String → Except String GeminiStreamEdge.Chunk

/-- Line 251: the simplified prompt of the reduced-parameter retry. -/
def simplifiedPrompt (truncated : String) : String :=
  "Create a simple HTML page for this content (keep it brief): " ++ Py.strTake truncated 500

/-- Lines 288-307: the static placeholder embedding a 500-character
preview of the (truncated) input. -/
def timeoutFallbackHtml (truncated : String) : String :=
  "<!DOCTYPE html><html lang=\"en\"><head><meta charset=\"UTF-8\">" ++
  "<title>Content Visualization</title></head><body>" ++
  "<h1>Content Visualization</h1><pre>" ++ Py.strTake truncated 500 ++ "...</pre>" ++
  "<p>Note: This is a fallback visualization as the model processing timed out.</p>" ++
  "</body></html>"

/-- Lines 327-346: the static error page embedding a 300-character
preview. -/
def errorFallbackHtml (truncated msg : String) : String :=
  "<!DOCTYPE html><html lang=\"en\"><head><meta charset=\"UTF-8\">" ++
  "<title>Error - Content Visualization</title></head><body>" ++
  "<h1>Error Processing Content</h1><pre>" ++ Py.strTake truncated 300 ++ "...</pre>" ++
  "<p>Error: " ++ msg ++ "</p></body></html>"

/-- The JSON body and status this endpoint answers with (the fields the
claims inspect). -/
structure PGResponse where
  status : Nat
  html : String
  modelName : Option String
  warning : Option String
  error : Option String
deriving Repr, DecidableEq

def GEMINI_MODEL : String := "gemini-2.5-pro-exp-03-25"

/-- Lines 172-352: the generation phase on the truncated content.  Note
the success path (lines 197-228) performs no emptiness check on the
extracted text: an empty extraction is returned as `html = ""` with
status 200 and triggers no cascade. -/
def processGenerate (b : Behavior) (truncated : String) : PGResponse :=
  match b.primary with
  | .ok resp =>
    { status := 200, html := GeminiStreamEdge.extractChunkText resp,
      modelName := some GEMINI_MODEL, warning := none, error := none }
  | .deadline _ =>
    let placeholder : PGResponse :=
      { status := 200, html := timeoutFallbackHtml truncated,
        modelName := some "fallback", warning := none,
        error := some "The Gemini API request took too long to complete. Fallback visualization provided." }
    match b.fallbackGen (simplifiedPrompt truncated) with
    | .ok resp2 =>
      let fh := GeminiStreamEdge.extractChunkText resp2
      if fh ≠ "" then
        { status := 200, html := fh, modelName := some GEMINI_MODEL,
          warning := some "Generated with reduced parameters due to timeout",
          error := none }
      else placeholder
    | .error _ => placeholder
  | .otherErr msg =>
    { status := 200, html := errorFallbackHtml truncated msg,
      modelName := none, warning := none,
      error := some ("Server error: " ++ msg) }

end ApiProcessGemini

/-
  process_gemini_stream.py — `handler` (lines 40-159): the request
  parse, in which `content` and `source` are interchangeable with
  `content` winning, and the prompt construction of lines 106-115.
-/

namespace PGStream

structure Request where
  api_key : Option String
  content : Option String
  source : Option String
  format_prompt : Option String
  max_tokens : Option Int
  temperature : Option ℚ
deriving Repr, DecidableEq

/-- What the handler extracts from an accepted request body. -/
structure Parsed where
  api_key : Option String
  content : String
  format_prompt : String
  max_tokens : Int
  temperature : ℚ
deriving Repr, DecidableEq

def GEMINI_MAX_OUTPUT_TOKENS : Int := 128000

def GEMINI_TEMPERATURE : ℚ := 1

/-- Lines 62-80: `content = data.get('content', '')`, falling back to
`source` when falsy, 400 when both are empty, then the remaining
parameters with their defaults. -/
def parseRequest (r : Request) : Except (Nat × String) Parsed :=
  let content :=
    if (r.content.getD "") ≠ "" then r.content.getD "" else r.source.getD ""
  if content = "" then .error (400, "Source code or text is required")
  else
    .ok { api_key := r.api_key, content := content,
          format_prompt := r.format_prompt.getD "",
          max_tokens := r.max_tokens.getD GEMINI_MAX_OUTPUT_TOKENS,
          temperature := r.temperature.getD GEMINI_TEMPERATURE }

def SYSTEM_INSTRUCTION : String :=
  "\nYou are a web developer specialized in converting content into beautiful, accessible, responsive HTML with modern CSS.\nGenerate a single-page website from the given content.\n"

/-- Lines 106-115: the prompt built from the parsed fields (content
truncated to 100000 characters, `format_prompt` appended when present). -/
def promptOf (p : Parsed) : String :=
  "\n" ++ SYSTEM_INSTRUCTION ++
    "\n\nHere is the content to transform into a website:\n\n" ++
    Py.strTake p.content 100000 ++ "\n" ++
    (if p.format_prompt ≠ "" then "\n\n" ++ p.format_prompt else "")

end PGStream

/-
  file_visualization/api/process-gemini.py — the response-text
  extraction of `process_request`, lines 141-181.  A response object is
  modelled attribute by attribute: `none` stands for a missing
  attribute.  Attribute and index errors raised inside the extraction
  are swallowed by the surrounding try/except with `html_content` still
  empty, so in the embedding they denote the empty string.
-/

namespace FvProcessGemini

structure FPart where
  text : Option String
deriving Repr, DecidableEq

structure FContent where
  parts : Option (List FPart)
deriving Repr, DecidableEq

structure FCandidate where
  content : Option FContent
deriving Repr, DecidableEq

structure Resolved where
  text : Option String
  parts : Option (List FPart)
deriving Repr, DecidableEq

structure FResponse where
  resolved : Option Resolved
  text : Option String
  parts : Option (List FPart)
  candidates : Option (List FCandidate)
  strRepr : String
deriving Repr, DecidableEq

/-- Lines 143-165: the attribute-keyed if/elif chain.  Each branch is
selected by attribute presence (and truthiness where the source checks
it) and assigns from the FIRST part only; a branch that raises or
assigns the empty string leaves `html_content` empty. -/
def tryExtract (r : FResponse) : String :=
  match r.resolved with
  | some rr =>
    match rr.text with
    | some t => t
    | none =>
      match rr.parts with
      | some (p :: _) => p.text.getD ""
      | _ => ""
  | none =>
    match r.text with
    | some t => t
    | none =>
      match r.parts with
      | some (p :: _) => p.text.getD ""
      | _ =>
        match r.candidates with
        | some (c :: _) =>
          match c.content with
          | some cc =>
            match cc.parts with
            | some (p :: _) => p.text.getD ""
            | _ => ""
          | none => ""
        | _ => ""

/-- Lines 167-176: when the chain produced nothing, fall back to
`str(response)`, rejected only when it is a `<genai.` object debug
representation. -/
def extract_html_content (r : FResponse) : String :=
  let h := tryExtract r
  if h = "" then
    if Py.pyStartsWith r.strRepr "<genai." then "" else r.strRepr
  else h

/-- Modelled from the spec: the Upstream Adapter as claim C5 words it
(spec section 4.1) — strategies tried in a fixed priority order
(resolved-text accessor; direct text field; parts concatenated;
candidates drilled and concatenated; whole-object string conversion
accepted only when it looks like a document), stopping at the first
strategy that yields NON-EMPTY text, with a recognizable document-start
marker standing in for the looks-like-a-document test. -/
def specStrategies (r : FResponse) : List String :=
  [ (r.resolved.bind (fun rr => rr.text)).getD ""
  , r.text.getD ""
  , Py.strConcat (((r.parts).getD []).map (fun p => p.text.getD ""))
  , Py.strConcat (((r.candidates).getD []).map (fun c =>
      Py.strConcat ((((c.content.bind (fun cc => cc.parts)).getD []).map
        (fun p => p.text.getD "")))))
  , (if Py.strContains r.strRepr "<!DOCTYPE" || Py.strContains r.strRepr "<html"
     then r.strRepr else "") ]

def specExtract (r : FResponse) : String :=
  ((specStrategies r).find? (fun s => s ≠ "")).getD ""

/-- The amended description of the source extractor: the first
structurally applicable attribute strategy is committed to even when it
yields empty text, each structured strategy reads only the first
part/candidate, and only an empty result falls through to the string
conversion, which is rejected exactly when it starts with the object
debug prefix. -/
def amendedStrategy (r : FResponse) : Option String :=
  match r.resolved with
  | some rr =>
    some (match rr.text with
          | some t => t
          | none =>
            match rr.parts with
            | some (p :: _) => p.text.getD ""
            | _ => "")
  | none =>
    match r.text with
    | some t => some t
    | none =>
      match r.parts with
      | some (p :: _) => some (p.text.getD "")
      | _ =>
        match r.candidates with
        | some (c :: _) =>
          some (match c.content with
                | some cc =>
                  match cc.parts with
                  | some (p :: _) => p.text.getD ""
                  | _ => ""
                | none => "")
        | _ => none

def amendedExtract (r : FResponse) : String :=
  let h := (amendedStrategy r).getD ""
  if h = "" then
    if Py.pyStartsWith r.strRepr "<genai." then "" else r.strRepr
  else h

end FvProcessGemini


/-
  ————————————————————————————————————————————————————————————————————
  Theorems.
  ————————————————————————————————————————————————————————————————————
-/

/-- C10: `format_stream_event(event_type, data)` returns exactly
`"event: " ++ event_type ++ "\ndata: " ++ json(data) ++ "\n\n"`, where
the serialized payload is the `data` dict alone (the empty dict when
`data` is falsy); the internal dict built by inserting the `"type"` key
is never serialized, so the payload carries a `"type"` key exactly when
the caller already included one in `data`. -/
theorem c10_format_stream_event_shape (event_type : String)
    (data : Option (List (String × HelperFunction.JValue))) :
    HelperFunction.format_stream_event event_type data =
      "event: " ++ event_type ++ "\ndata: " ++
        HelperFunction.jsonDumps (HelperFunction.truthyData data) ++ "\n\n"
    ∧ (HelperFunction.truthyData data).lookup "type" =
        (data.getD []).lookup "type" := by
  refine ⟨rfl, ?_⟩
  cases data with
  | none => rfl
  | some d =>
    by_cases hd : d = []
    · subst hd; rfl
    · simp [HelperFunction.truthyData, hd]

/-- C9 counterexample: in api/process-gemini.py (lines 112-125) the
`source` field is never consulted, so a request whose `content` is
absent and whose `source` is non-empty is rejected with status 400
instead of being accepted — refuting interchangeability of the two
fields for every request body. -/
theorem c9_counterexample :
    ApiProcessGemini.requestGate
      { api_key := some "test-key", content := none, source := some "hello world" } =
      (400, none) := rfl

/-- C9 (amended): in the streaming handler of process_gemini_stream.py
(lines 68-75) `content` and `source` are interchangeable with `content`
winning: a body with `content` absent and `source` non-empty parses to
exactly the same accepted parse as the same body carrying the text in
`content` (the handler is a function of this parse, so processing is
identical), and when both are non-empty `content` wins.  In
api/process-gemini.py, however, only `content` is read and a
source-only request is rejected with 400. -/
theorem c9_source_content_interchange (s : String) (hs : s ≠ "")
    (k fp src : Option String) (mt : Option Int) (tp : Option ℚ) :
    PGStream.parseRequest
        { api_key := k, content := none, source := some s,
          format_prompt := fp, max_tokens := mt, temperature := tp } =
      PGStream.parseRequest
        { api_key := k, content := some s, source := src,
          format_prompt := fp, max_tokens := mt, temperature := tp }
    ∧ (∃ p, PGStream.parseRequest
          { api_key := k, content := none, source := some s,
            format_prompt := fp, max_tokens := mt, temperature := tp } =
            Except.ok p ∧ p.content = s)
    ∧ (∀ c : String, c ≠ "" →
        ∃ p, PGStream.parseRequest
            { api_key := k, content := some c, source := some s,
              format_prompt := fp, max_tokens := mt, temperature := tp } =
            Except.ok p ∧ p.content = c)
    ∧ (∀ k2 : Option String,
        ApiProcessGemini.requestGate
          { api_key := k2, content := none, source := some s } = (400, none)) := by
  refine ⟨?_, ?_, ?_, ?_⟩
  · simp [PGStream.parseRequest, hs]
  · refine ⟨{ api_key := k, content := s, format_prompt := fp.getD "",
              max_tokens := mt.getD PGStream.GEMINI_MAX_OUTPUT_TOKENS,
              temperature := tp.getD PGStream.GEMINI_TEMPERATURE }, ?_, rfl⟩
    simp [PGStream.parseRequest, hs]
  · intro c hc
    refine ⟨{ api_key := k, content := c, format_prompt := fp.getD "",
              max_tokens := mt.getD PGStream.GEMINI_MAX_OUTPUT_TOKENS,
              temperature := tp.getD PGStream.GEMINI_TEMPERATURE }, ?_, rfl⟩
    simp [PGStream.parseRequest, hc]
  · intro k2
    simp [ApiProcessGemini.requestGate, Py.falsyOpt]

/-- Closed witness for `c9_source_content_interchange` at
`s = "hello"`. -/
theorem c9_source_content_interchange_witness :
    PGStream.parseRequest
        { api_key := some "k1", content := none, source := some "hello",
          format_prompt := none, max_tokens := none, temperature := none } =
      PGStream.parseRequest
        { api_key := some "k1", content := some "hello", source := none,
          format_prompt := none, max_tokens := none, temperature := none }
    ∧ (∃ p, PGStream.parseRequest
          { api_key := some "k1", content := none, source := some "hello",
            format_prompt := none, max_tokens := none, temperature := none } =
            Except.ok p ∧ p.content = "hello")
    ∧ (∀ c : String, c ≠ "" →
        ∃ p, PGStream.parseRequest
            { api_key := some "k1", content := some c, source := some "hello",
              format_prompt := none, max_tokens := none, temperature := none } =
            Except.ok p ∧ p.content = c)
    ∧ (∀ k2 : Option String,
        ApiProcessGemini.requestGate
          { api_key := k2, content := none, source := some "hello" } = (400, none)) :=
  c9_source_content_interchange "hello" (by decide) (some "k1") none none none none

/-- C5 counterexample: on a response populated only through a
two-element `parts` collection, the extractor of
file_visualization/api/process-gemini.py returns just the first part
text `"A"`, while the claimed procedure (parts concatenated, first
non-empty strategy wins) yields `"AB"`. -/
theorem c5_counterexample :
    FvProcessGemini.extract_html_content
        { resolved := none, text := none,
          parts := some [{ text := some "A" }, { text := some "B" }],
          candidates := none, strRepr := "<genai.GenerateContentResponse>" } = "A"
    ∧ FvProcessGemini.specExtract
        { resolved := none, text := none,
          parts := some [{ text := some "A" }, { text := some "B" }],
          candidates := none, strRepr := "<genai.GenerateContentResponse>" } = "AB"
    ∧ ("A" : String) ≠ "AB" := by
  refine ⟨rfl, by decide, by decide⟩

/-- C5 (amended): the extractor commits to the first structurally
applicable attribute strategy, in the order resolved-accessor, direct
text, parts, candidates — even when that strategy yields empty text —
reading only the FIRST part (and first candidate); only an empty result
falls through to whole-object string conversion, which is rejected
exactly when it starts with the `<genai.` object debug prefix; it
always returns a string (empty when nothing yields text) and never
throws. -/
theorem c5_extractor_amended (r : FvProcessGemini.FResponse) :
    FvProcessGemini.extract_html_content r = FvProcessGemini.amendedExtract r := by
  rcases r with ⟨res, tx, pts, cnd, sr⟩
  rcases res with _ | rr
  · rcases tx with _ | t
    · rcases pts with _ | (_ | ⟨p, ps⟩)
      · rcases cnd with _ | (_ | ⟨c, cz⟩)
        · rfl
        · rfl
        · rcases c with ⟨_ | cc⟩
          · rfl
          · rcases cc with ⟨_ | (_ | ⟨q, qs⟩)⟩ <;> rfl
      · rcases cnd with _ | (_ | ⟨c, cz⟩)
        · rfl
        · rfl
        · rcases c with ⟨_ | cc⟩
          · rfl
          · rcases cc with ⟨_ | (_ | ⟨q, qs⟩)⟩ <;> rfl
      · rfl
    · rfl
  · rfl

/-- C8 counterexample: in api/process-gemini-stream.py (lines 148-190)
a request with non-empty content and a MISSING `api_key` is not
rejected with 400: the `create_gemini_client` constructor is invoked
(line 182) and its failure is answered with status 401 — refuting both
the immediate-400 and the no-constructor-call parts of the claim. -/
theorem c8_counterexample :
    ProcessGeminiStream.streamRequestGate none (some "hello") none true =
      (401, true) := rfl

/-- C8 (amended): in server.py /api/process (lines 163-164) a missing
or empty `api_key` yields an immediate 400 with the Anthropic client
constructor not invoked; in the api/process-gemini-stream.py streaming
endpoint, however, there is no up-front api_key check — for every
request passing the content check the Gemini client constructor IS
invoked, and a missing/empty api_key surfaces as a 401 from the
constructor failure. -/
theorem c8_api_key_gate
    (k c : Option String) (hk : Py.falsyOpt k = true)
    (content source : Option String) (clientOk : Bool)
    (hc : (if (content.getD "") ≠ "" then content.getD "" else source.getD "") ≠ "") :
    Server.processFileGate k c = (400, false)
    ∧ ProcessGeminiStream.streamRequestGate k content source clientOk = (401, true) := by
  constructor
  · simp [Server.processFileGate, hk]
  · simp only [ProcessGeminiStream.streamRequestGate]
    rw [if_neg (by simpa using hc)]
    simp [hk]

/-- Closed witness for `c8_api_key_gate`: missing api_key, content
`"hello"`. -/
theorem c8_api_key_gate_witness :
    Server.processFileGate none (some "x") = (400, false)
    ∧ ProcessGeminiStream.streamRequestGate none (some "hello") none true =
        (401, true) :=
  c8_api_key_gate none (some "x") (by decide) (some "hello") none true (by decide)

/-- Left identity of string append (definitional; stated for `simp`). -/
theorem empty_append_str (s : String) : "" ++ s = s := rfl

/-- A list of strings with a non-empty member concatenates to a
non-empty string. -/
theorem strConcat_ne_empty (l : List String) (h : ∃ s ∈ l, s ≠ "") :
    Py.strConcat l ≠ "" := by
  induction l with
  | nil => rcases h with ⟨s, hs, _⟩; cases hs
  | cons a t ih =>
    rcases h with ⟨s, hs, hne⟩
    intro hcon
    have hd : a.data ++ (Py.strConcat t).data = ([] : List Char) :=
      congrArg String.data hcon
    have ha : a = "" := String.ext (List.append_eq_nil.mp hd).1
    have ht : Py.strConcat t = "" := String.ext (List.append_eq_nil.mp hd).2
    rcases List.mem_cons.mp hs with rfl | hmem
    · exact hne ha
    · exact ih ⟨s, hmem, hne⟩ ht

/-- The chunk loop of gemini-stream-edge.py accumulates exactly the
concatenation of the extracted chunk texts, in arrival order. -/
theorem processChunks_acc (cs : List GeminiStreamEdge.Chunk) (n : Nat) (acc : String) :
    (GeminiStreamEdge.processChunks cs n acc).2 =
      acc ++ Py.strConcat (cs.map GeminiStreamEdge.extractChunkText) := by
  induction cs generalizing n acc with
  | nil => simp [GeminiStreamEdge.processChunks, Py.strConcat, String.append_empty]
  | cons c cs ih =>
    by_cases ht : GeminiStreamEdge.extractChunkText c = ""
    · simp [GeminiStreamEdge.processChunks, ht, ih, Py.strConcat, empty_append_str]
    · simp [GeminiStreamEdge.processChunks, ht, ih, Py.strConcat, String.append_assoc]

/-- The chunk loop emits only `content_block_delta` and `keepalive`
events. -/
theorem processChunks_events (cs : List GeminiStreamEdge.Chunk) (n : Nat) (acc : String) :
    ∀ e ∈ (GeminiStreamEdge.processChunks cs n acc).1,
      (∃ t, e = GeminiStreamEdge.EEvent.contentBlockDelta t) ∨
        e = GeminiStreamEdge.EEvent.keepalive := by
  induction cs generalizing n acc with
  | nil => intro e he; cases he
  | cons c cs ih =>
    intro e he
    by_cases ht : GeminiStreamEdge.extractChunkText c = ""
    · rw [show GeminiStreamEdge.processChunks (c :: cs) n acc =
          GeminiStreamEdge.processChunks cs (n + 1) acc from by
        simp [GeminiStreamEdge.processChunks, ht]] at he
      exact ih (n + 1) acc e he
    · simp only [GeminiStreamEdge.processChunks, ht, if_neg, ite_false] at he
      rcases List.mem_append.mp he with h1 | h2
      · rcases List.mem_cons.mp h1 with rfl | h3
        · exact Or.inl ⟨_, rfl⟩
        · by_cases h15 : (n + 1) % 15 = 0
          · simp [h15] at h3
            exact Or.inr h3
          · simp [h15] at h3
      · exact ih (n + 1) (acc ++ GeminiStreamEdge.extractChunkText c) e h2

/-- The chunk loop emits no `message_complete` event. -/
theorem processChunks_countComplete (cs : List GeminiStreamEdge.Chunk) (n : Nat) (acc : String) :
    GeminiStreamEdge.countComplete (GeminiStreamEdge.processChunks cs n acc).1 = 0 := by
  rw [GeminiStreamEdge.countComplete, List.countP_eq_zero]
  intro e he
  rcases processChunks_events cs n acc e he with ⟨t, rfl⟩ | rfl <;>
    simp [GeminiStreamEdge.isCompleteEvent]

/-- The chunk loop emits no `error` event either. -/
theorem processChunks_countError (cs : List GeminiStreamEdge.Chunk) (n : Nat) (acc : String) :
    GeminiStreamEdge.countError (GeminiStreamEdge.processChunks cs n acc).1 = 0 := by
  rw [GeminiStreamEdge.countError, List.countP_eq_zero]
  intro e he
  rcases processChunks_events cs n acc e he with ⟨t, rfl⟩ | rfl <;>
    simp [GeminiStreamEdge.isErrorEvent]

/-- C2: when the upstream stream raises after at least one non-empty
chunk was extracted, gemini-stream-edge.py emits exactly one
`message_complete`, as the final event, marked "Generation partially
complete", whose html equals the concatenation of all chunk texts
extracted before the failure — the partial text is never discarded. -/
theorem c2_partial_content_preserved
    (chunks : List GeminiStreamEdge.Chunk) (err prompt : String)
    (fb : Except String GeminiStreamEdge.Chunk)
    (h : ∃ c ∈ chunks, GeminiStreamEdge.extractChunkText c ≠ "") :
    GeminiStreamEdge.countComplete
        (GeminiStreamEdge.process_stream_request ⟨none, .failAfter chunks err, fb⟩ prompt) = 1
    ∧ (GeminiStreamEdge.process_stream_request ⟨none, .failAfter chunks err, fb⟩ prompt).getLast? =
        some (GeminiStreamEdge.completeEvent "Generation partially complete" prompt
          (Py.strConcat (chunks.map GeminiStreamEdge.extractChunkText))) := by
  have hacc : (GeminiStreamEdge.processChunks chunks 0 "").2 =
      Py.strConcat (chunks.map GeminiStreamEdge.extractChunkText) := by
    rw [processChunks_acc]; exact empty_append_str _
  have hmem : ∃ s ∈ chunks.map GeminiStreamEdge.extractChunkText, s ≠ "" := by
    rcases h with ⟨c, hc, hcne⟩
    exact ⟨_, List.mem_map_of_mem _ hc, hcne⟩
  have hne : (GeminiStreamEdge.processChunks chunks 0 "").2 ≠ "" := by
    rw [hacc]; exact strConcat_ne_empty _ hmem
  have hc0 := processChunks_countComplete chunks 0 ""
  rw [GeminiStreamEdge.countComplete] at hc0
  constructor
  · simp only [GeminiStreamEdge.process_stream_request]
    rw [if_pos hne]
    simp [GeminiStreamEdge.countComplete, List.countP_append, List.countP_cons,
      hc0, GeminiStreamEdge.isCompleteEvent, GeminiStreamEdge.completeEvent]
  · simp only [GeminiStreamEdge.process_stream_request]
    rw [if_pos hne, List.getLast?_concat, hacc]

/-- Closed witness for `c2_partial_content_preserved`: one chunk
`"Hi"`, then a stream error. -/
theorem c2_partial_content_preserved_witness :
    GeminiStreamEdge.countComplete
        (GeminiStreamEdge.process_stream_request
          ⟨none, .failAfter [⟨some "Hi", []⟩] "boom", Except.error "x"⟩ "p") = 1
    ∧ (GeminiStreamEdge.process_stream_request
          ⟨none, .failAfter [⟨some "Hi", []⟩] "boom", Except.error "x"⟩ "p").getLast? =
        some (GeminiStreamEdge.completeEvent "Generation partially complete" "p"
          (Py.strConcat (([⟨some "Hi", []⟩] :
              List GeminiStreamEdge.Chunk).map GeminiStreamEdge.extractChunkText))) :=
  c2_partial_content_preserved [⟨some "Hi", []⟩] "boom" "p" (Except.error "x") (by decide)

/-- A list of empty strings concatenates to the empty string. -/
theorem strConcat_eq_empty (l : List String) (h : ∀ s ∈ l, s = "") :
    Py.strConcat l = "" := by
  induction l with
  | nil => rfl
  | cons a t ih =>
    show a ++ Py.strConcat t = ""
    rw [h a (List.mem_cons_self _ _), ih (fun s hs => h s (List.mem_cons_of_mem _ hs))]
    rfl

/-- C6: when the stream completes without error,
gemini-stream-edge.py emits exactly one `message_complete`, as the
final event; its html equals the concatenation of all chunk texts in
arrival order, and the reported `usage.output_tokens` is strictly
positive.  The last conjunct is the claim's Scenario A: chunks
`"<html>"`, `"<body>Hi</body>"`, `"</html>"` assemble to
`"<html><body>Hi</body></html>"`. -/
theorem c6_success_assembly (chunks : List GeminiStreamEdge.Chunk)
    (prompt : String) (fb : Except String GeminiStreamEdge.Chunk) :
    GeminiStreamEdge.countComplete
        (GeminiStreamEdge.process_stream_request ⟨none, .ok chunks, fb⟩ prompt) = 1
    ∧ (GeminiStreamEdge.process_stream_request ⟨none, .ok chunks, fb⟩ prompt).getLast? =
        some (GeminiStreamEdge.completeEvent "Generation complete" prompt
          (Py.strConcat (chunks.map GeminiStreamEdge.extractChunkText)))
    ∧ 0 < Py.approxTokens (Py.strConcat (chunks.map GeminiStreamEdge.extractChunkText))
    ∧ GeminiStreamEdge.process_stream_request
        ⟨none, GeminiStreamEdge.StreamOutcome.ok
          [⟨some "<html>", []⟩, ⟨some "<body>Hi</body>", []⟩, ⟨some "</html>", []⟩],
         Except.error ""⟩ "Hello world" =
      [GeminiStreamEdge.EEvent.streamStart,
       GeminiStreamEdge.EEvent.status "Model loaded, starting generation",
       GeminiStreamEdge.EEvent.contentBlockDelta "<html>",
       GeminiStreamEdge.EEvent.contentBlockDelta "<body>Hi</body>",
       GeminiStreamEdge.EEvent.contentBlockDelta "</html>",
       GeminiStreamEdge.EEvent.messageComplete "Generation complete"
         "<html><body>Hi</body></html>" 2 1] := by
  have hc0 := processChunks_countComplete chunks 0 ""
  rw [GeminiStreamEdge.countComplete] at hc0
  refine ⟨?_, ?_, ?_, by decide⟩
  · simp only [GeminiStreamEdge.process_stream_request]
    simp [GeminiStreamEdge.countComplete, List.countP_append, List.countP_cons,
      hc0, GeminiStreamEdge.isCompleteEvent, GeminiStreamEdge.completeEvent]
  · simp only [GeminiStreamEdge.process_stream_request]
    rw [List.getLast?_concat, processChunks_acc, empty_append_str]
  · simp only [Py.approxTokens]
    exact Nat.lt_of_lt_of_le Nat.one_pos (le_max_left _ _)

/-- C4 counterexample: the claim says the controller runs a four-step
cascade (non-streaming full, reduced parameters, simplified prompt,
static placeholder) whose placeholder step cannot fail, reports the
succeeding step via a `warning` field, and emits a terminal error only
if EVERY step fails.  In gemini-stream-edge.py, when the stream fails
with no content and the single non-streaming retry returns empty text,
the code emits a terminal `error` event at once: no reduced-parameter,
simplified-prompt or placeholder step is attempted, no warning is
reported, and no `message_complete` occurs — refuting the claim at
this input. -/
theorem c4_counterexample :
    GeminiStreamEdge.process_stream_request
        ⟨none, GeminiStreamEdge.StreamOutcome.failAfter [] "boom",
         Except.ok ⟨some "", []⟩⟩ "p" =
      [GeminiStreamEdge.EEvent.streamStart,
       GeminiStreamEdge.EEvent.status "Model loaded, starting generation",
       GeminiStreamEdge.EEvent.status "Trying non-streaming fallback",
       GeminiStreamEdge.EEvent.error_ "No content from non-streaming fallback"]
    ∧ GeminiStreamEdge.countComplete
        (GeminiStreamEdge.process_stream_request
          ⟨none, GeminiStreamEdge.StreamOutcome.failAfter [] "boom",
           Except.ok ⟨some "", []⟩⟩ "p") = 0 :=
  ⟨by decide, by decide⟩

/-- C4 (amended): the degraded cascades found in the source are
shorter and differ per endpoint.  In gemini-stream-edge.py, when the
primary stream fails having produced no content, exactly one degraded
step runs — a non-streaming request with the same prompt and
parameters: if it raises, the trace ends with a terminal error event
and carries no `message_complete`; if it yields text, the trace ends
with a `message_complete` marked "Generation complete (fallback)" (no
warning field exists in this pipeline); if it yields empty text, the
trace ends with a terminal error event.  In api/process-gemini.py the
cascade is triggered by `DeadlineExceeded` (not by empty content): one
retry combining reduced parameters WITH a simplified prompt built from
a 500-character prefix — reported, when it yields text, via the
`warning` field — and otherwise a static placeholder embedding a
preview of the input, returned with status 200 and an `error` (not
`warning`) field. -/
theorem c4_cascade_amended
    (chunks : List GeminiStreamEdge.Chunk) (err prompt : String)
    (hacc : ∀ c ∈ chunks, GeminiStreamEdge.extractChunkText c = "")
    (truncated msg : String) (b2 : ApiProcessGemini.Behavior)
    (hdl : b2.primary = ApiProcessGemini.GenOutcome.deadline msg) :
    (∀ fe : String,
      (GeminiStreamEdge.process_stream_request
          ⟨none, .failAfter chunks err, Except.error fe⟩ prompt).getLast? =
        some (GeminiStreamEdge.EEvent.error_ ("Generation failed: " ++ fe))
      ∧ GeminiStreamEdge.countComplete
          (GeminiStreamEdge.process_stream_request
            ⟨none, .failAfter chunks err, Except.error fe⟩ prompt) = 0)
    ∧ (∀ resp : GeminiStreamEdge.Chunk, GeminiStreamEdge.extractChunkText resp ≠ "" →
        (GeminiStreamEdge.process_stream_request
            ⟨none, .failAfter chunks err, Except.ok resp⟩ prompt).getLast? =
          some (GeminiStreamEdge.completeEvent "Generation complete (fallback)" prompt
            (GeminiStreamEdge.extractChunkText resp))
        ∧ GeminiStreamEdge.countComplete
            (GeminiStreamEdge.process_stream_request
              ⟨none, .failAfter chunks err, Except.ok resp⟩ prompt) = 1)
    ∧ (∀ resp : GeminiStreamEdge.Chunk, GeminiStreamEdge.extractChunkText resp = "" →
        (GeminiStreamEdge.process_stream_request
            ⟨none, .failAfter chunks err, Except.ok resp⟩ prompt).getLast? =
          some (GeminiStreamEdge.EEvent.error_ "No content from non-streaming fallback")
        ∧ GeminiStreamEdge.countComplete
            (GeminiStreamEdge.process_stream_request
              ⟨none, .failAfter chunks err, Except.ok resp⟩ prompt) = 0)
    ∧ (∀ resp2 : GeminiStreamEdge.Chunk,
        b2.fallbackGen (ApiProcessGemini.simplifiedPrompt truncated) = Except.ok resp2 →
        GeminiStreamEdge.extractChunkText resp2 ≠ "" →
        ApiProcessGemini.processGenerate b2 truncated =
          { status := 200, html := GeminiStreamEdge.extractChunkText resp2,
            modelName := some ApiProcessGemini.GEMINI_MODEL,
            warning := some "Generated with reduced parameters due to timeout",
            error := none })
    ∧ (∀ resp2 : GeminiStreamEdge.Chunk,
        b2.fallbackGen (ApiProcessGemini.simplifiedPrompt truncated) = Except.ok resp2 →
        GeminiStreamEdge.extractChunkText resp2 = "" →
        ApiProcessGemini.processGenerate b2 truncated =
          { status := 200, html := ApiProcessGemini.timeoutFallbackHtml truncated,
            modelName := some "fallback", warning := none,
            error := some "The Gemini API request took too long to complete. Fallback visualization provided." })
    ∧ (∀ fe2 : String,
        b2.fallbackGen (ApiProcessGemini.simplifiedPrompt truncated) = Except.error fe2 →
        ApiProcessGemini.processGenerate b2 truncated =
          { status := 200, html := ApiProcessGemini.timeoutFallbackHtml truncated,
            modelName := some "fallback", warning := none,
            error := some "The Gemini API request took too long to complete. Fallback visualization provided." }) := by
  have hacc2 : (GeminiStreamEdge.processChunks chunks 0 "").2 = "" := by
    rw [processChunks_acc, empty_append_str]
    exact strConcat_eq_empty _ (by
      intro s hs
      rcases List.mem_map.mp hs with ⟨c, hc, rfl⟩
      exact hacc c hc)
  have hc0 := processChunks_countComplete chunks 0 ""
  rw [GeminiStreamEdge.countComplete] at hc0
  have hnn : ¬ ((GeminiStreamEdge.processChunks chunks 0 "").2 ≠ "") :=
    not_not_intro hacc2
  refine ⟨?_, ?_, ?_, ?_, ?_, ?_⟩
  · intro fe
    constructor
    · simp only [GeminiStreamEdge.process_stream_request]
      rw [if_neg hnn, List.getLast?_concat]
    · simp only [GeminiStreamEdge.process_stream_request]
      rw [if_neg hnn]
      simp [GeminiStreamEdge.countComplete, List.countP_append, List.countP_cons,
        hc0, GeminiStreamEdge.isCompleteEvent]
  · intro resp hr
    constructor
    · simp only [GeminiStreamEdge.process_stream_request]
      rw [if_neg hnn]
      rw [if_pos hr]
      rw [show [GeminiStreamEdge.EEvent.content (GeminiStreamEdge.extractChunkText resp),
            GeminiStreamEdge.completeEvent "Generation complete (fallback)" prompt
              (GeminiStreamEdge.extractChunkText resp)] =
          [GeminiStreamEdge.EEvent.content (GeminiStreamEdge.extractChunkText resp)] ++
            [GeminiStreamEdge.completeEvent "Generation complete (fallback)" prompt
              (GeminiStreamEdge.extractChunkText resp)] from rfl]
      rw [← List.append_assoc, List.getLast?_concat]
    · simp only [GeminiStreamEdge.process_stream_request]
      rw [if_neg hnn, if_pos hr]
      simp [GeminiStreamEdge.countComplete, List.countP_append, List.countP_cons,
        hc0, GeminiStreamEdge.isCompleteEvent, GeminiStreamEdge.completeEvent]
  · intro resp hr
    constructor
    · simp only [GeminiStreamEdge.process_stream_request]
      rw [if_neg hnn, if_neg (not_not_intro hr), List.getLast?_concat]
    · simp only [GeminiStreamEdge.process_stream_request]
      rw [if_neg hnn, if_neg (not_not_intro hr)]
      simp [GeminiStreamEdge.countComplete, List.countP_append, List.countP_cons,
        hc0, GeminiStreamEdge.isCompleteEvent]
  · intro resp2 hfb hx
    simp only [ApiProcessGemini.processGenerate, hdl, hfb]
    rw [if_pos hx]
  · intro resp2 hfb hx
    simp only [ApiProcessGemini.processGenerate, hdl, hfb]
    rw [if_neg (not_not_intro hx)]
  · intro fe2 hfb
    simp only [ApiProcessGemini.processGenerate, hdl, hfb]

/-- Closed witness for `c4_cascade_amended`: empty chunk list,
deadline-failing primary, raising fallback generation. -/
theorem c4_cascade_amended_witness :
    (∀ fe : String,
      (GeminiStreamEdge.process_stream_request
          ⟨none, .failAfter [] "e", Except.error fe⟩ "p").getLast? =
        some (GeminiStreamEdge.EEvent.error_ ("Generation failed: " ++ fe))
      ∧ GeminiStreamEdge.countComplete
          (GeminiStreamEdge.process_stream_request
            ⟨none, .failAfter [] "e", Except.error fe⟩ "p") = 0)
    ∧ (∀ resp : GeminiStreamEdge.Chunk, GeminiStreamEdge.extractChunkText resp ≠ "" →
        (GeminiStreamEdge.process_stream_request
            ⟨none, .failAfter [] "e", Except.ok resp⟩ "p").getLast? =
          some (GeminiStreamEdge.completeEvent "Generation complete (fallback)" "p"
            (GeminiStreamEdge.extractChunkText resp))
        ∧ GeminiStreamEdge.countComplete
            (GeminiStreamEdge.process_stream_request
              ⟨none, .failAfter [] "e", Except.ok resp⟩ "p") = 1)
    ∧ (∀ resp : GeminiStreamEdge.Chunk, GeminiStreamEdge.extractChunkText resp = "" →
        (GeminiStreamEdge.process_stream_request
            ⟨none, .failAfter [] "e", Except.ok resp⟩ "p").getLast? =
          some (GeminiStreamEdge.EEvent.error_ "No content from non-streaming fallback")
        ∧ GeminiStreamEdge.countComplete
            (GeminiStreamEdge.process_stream_request
              ⟨none, .failAfter [] "e", Except.ok resp⟩ "p") = 0)
    ∧ (∀ resp2 : GeminiStreamEdge.Chunk,
        (⟨ApiProcessGemini.GenOutcome.deadline "m", fun _ => Except.error "g"⟩ :
            ApiProcessGemini.Behavior).fallbackGen
          (ApiProcessGemini.simplifiedPrompt "t") = Except.ok resp2 →
        GeminiStreamEdge.extractChunkText resp2 ≠ "" →
        ApiProcessGemini.processGenerate
            ⟨ApiProcessGemini.GenOutcome.deadline "m", fun _ => Except.error "g"⟩ "t" =
          { status := 200, html := GeminiStreamEdge.extractChunkText resp2,
            modelName := some ApiProcessGemini.GEMINI_MODEL,
            warning := some "Generated with reduced parameters due to timeout",
            error := none })
    ∧ (∀ resp2 : GeminiStreamEdge.Chunk,
        (⟨ApiProcessGemini.GenOutcome.deadline "m", fun _ => Except.error "g"⟩ :
            ApiProcessGemini.Behavior).fallbackGen
          (ApiProcessGemini.simplifiedPrompt "t") = Except.ok resp2 →
        GeminiStreamEdge.extractChunkText resp2 = "" →
        ApiProcessGemini.processGenerate
            ⟨ApiProcessGemini.GenOutcome.deadline "m", fun _ => Except.error "g"⟩ "t" =
          { status := 200, html := ApiProcessGemini.timeoutFallbackHtml "t",
            modelName := some "fallback", warning := none,
            error := some "The Gemini API request took too long to complete. Fallback visualization provided." })
    ∧ (∀ fe2 : String,
        (⟨ApiProcessGemini.GenOutcome.deadline "m", fun _ => Except.error "g"⟩ :
            ApiProcessGemini.Behavior).fallbackGen
          (ApiProcessGemini.simplifiedPrompt "t") = Except.error fe2 →
        ApiProcessGemini.processGenerate
            ⟨ApiProcessGemini.GenOutcome.deadline "m", fun _ => Except.error "g"⟩ "t" =
          { status := 200, html := ApiProcessGemini.timeoutFallbackHtml "t",
            modelName := some "fallback", warning := none,
            error := some "The Gemini API request took too long to complete. Fallback visualization provided." }) :=
  c4_cascade_amended [] "e" "p" (by intro c hc; cases hc) "t" "m"
    ⟨ApiProcessGemini.GenOutcome.deadline "m", fun _ => Except.error "g"⟩ rfl

/-- Prefix testing is preserved by extending the tested list. -/
theorem isPrefixChars_append (p a b : List Char) (h : Py.isPrefixChars p a = true) :
    Py.isPrefixChars p (a ++ b) = true := by
  induction p generalizing a with
  | nil => rfl
  | cons c ps ih =>
    cases a with
    | nil => simp [Py.isPrefixChars] at h
    | cons a1 as =>
      simp only [Py.isPrefixChars, Bool.and_eq_true, decide_eq_true_eq] at h ⊢
      exact ⟨h.1, ih as h.2⟩

/-- `startswith` is preserved by appending to the string. -/
theorem pyStartsWith_append (s t pre : String) (h : Py.pyStartsWith s pre = true) :
    Py.pyStartsWith (s ++ t) pre = true :=
  isPrefixChars_append pre.data s.data t.data h

/-- Every retry-notice message is recognized by `isRetryNotice`. -/
theorem isRetryNotice_retryNoticeMsg (d : ℤ) (n : Nat) :
    Server.isRetryNotice
      (Server.Action.emit (Server.SEvent.info (Server.retryNoticeMsg d n))) = true := by
  show Py.pyStartsWith (Server.retryNoticeMsg d n) "Service is busy" = true
  unfold Server.retryNoticeMsg
  apply pyStartsWith_append
  apply pyStartsWith_append
  apply pyStartsWith_append
  apply pyStartsWith_append
  apply pyStartsWith_append
  apply pyStartsWith_append
  decide

/-- Emitted events contribute no sleep durations. -/
theorem sleepDurations_emits (es : List Server.SEvent) :
    Server.sleepDurations (es.map Server.Action.emit) = [] := by
  induction es with
  | nil => rfl
  | cons e es ih => simp [Server.sleepDurations] at ih ⊢

/-- The retry loop issues at most `fuel` attempts. -/
theorem generateLoop_le (attempt : Nat → Server.AttemptResult) (jitter : Nat → ℤ)
    (ra fuel : Nat) :
    (Server.generateLoop attempt jitter ra fuel).2 ≤ fuel := by
  induction fuel generalizing ra with
  | zero => exact Nat.le_refl 0
  | succ n ih =>
    cases hat : attempt ra with
    | ok body => simp [Server.generateLoop, hat]
    | err e =>
      by_cases hcond : Server.isOverloaded e ∧ ra < Server.maxRetries
      · simp only [Server.generateLoop, hat, if_pos hcond]
        exact Nat.succ_le_succ (ih (ra + 1))
      · simp [Server.generateLoop, hat, if_neg hcond]

/-- With fuel left, the retry loop issues at least one attempt. -/
theorem generateLoop_pos (attempt : Nat → Server.AttemptResult) (jitter : Nat → ℤ)
    (ra fuel : Nat) (h : 1 ≤ fuel) :
    1 ≤ (Server.generateLoop attempt jitter ra fuel).2 := by
  cases fuel with
  | zero => omega
  | succ n =>
    cases hat : attempt ra with
    | ok body => simp [Server.generateLoop, hat]
    | err e =>
      by_cases hcond : Server.isOverloaded e ∧ ra < Server.maxRetries
      · simp only [Server.generateLoop, hat, if_pos hcond]
        exact Nat.succ_le_succ (Nat.zero_le _)
      · simp [Server.generateLoop, hat, if_neg hcond]

/-- The sleeps of the retry loop are exactly the backoff delays of the
non-final attempts, in order. -/
theorem generateLoop_sleeps (attempt : Nat → Server.AttemptResult) (jitter : Nat → ℤ)
    (ra fuel : Nat) (hra : ra + fuel = Server.maxRetries + 1) :
    Server.sleepDurations (Server.generateLoop attempt jitter ra fuel).1 =
      (List.range' ra ((Server.generateLoop attempt jitter ra fuel).2 - 1)).map
        (fun n => Server.delayFor n (jitter n)) := by
  induction fuel generalizing ra with
  | zero => rfl
  | succ n ih =>
    cases hat : attempt ra with
    | ok body =>
      simp only [Server.generateLoop, hat]
      rw [Server.sleepDurations, List.filterMap_append]
      rw [← Server.sleepDurations, ← Server.sleepDurations, sleepDurations_emits]
      rfl
    | err e =>
      by_cases hcond : Server.isOverloaded e ∧ ra < Server.maxRetries
      · simp only [Server.generateLoop, hat, if_pos hcond]
        have hn : 1 ≤ n := by
          have := hcond.2
          simp [Server.maxRetries] at this ⊢
          omega
        have hpos := generateLoop_pos attempt jitter (ra + 1) n hn
        have hrec := ih (ra + 1) (by omega)
        rw [show Server.sleepDurations
            (Server.Action.emit (Server.SEvent.info
                (Server.retryNoticeMsg (Server.delayFor ra (jitter ra)) ra)) ::
              Server.Action.sleep (Server.delayFor ra (jitter ra)) ::
              (Server.generateLoop attempt jitter (ra + 1) n).1) =
          Server.delayFor ra (jitter ra) ::
            Server.sleepDurations (Server.generateLoop attempt jitter (ra + 1) n).1 from rfl]
        rw [hrec]
        rw [show (Server.generateLoop attempt jitter (ra + 1) n).2 + 1 - 1 =
          ((Server.generateLoop attempt jitter (ra + 1) n).2 - 1) + 1 by omega]
        rfl
      · simp [Server.generateLoop, hat, if_neg hcond, Server.sleepDurations]

/-- A reached non-overloaded error stops the loop at that attempt. -/
theorem generateLoop_stop (attempt : Nat → Server.AttemptResult) (jitter : Nat → ℤ)
    (k : Nat) (e : Server.UpstreamError) (hk : attempt k = Server.AttemptResult.err e)
    (hno : Server.isOverloaded e = false) (ra fuel : Nat) (hra : ra ≤ k) :
    (Server.generateLoop attempt jitter ra fuel).2 ≤ k + 1 - ra := by
  induction fuel generalizing ra with
  | zero => exact Nat.zero_le _
  | succ n ih =>
    cases hat : attempt ra with
    | ok body =>
      simp only [Server.generateLoop, hat]
      omega
    | err e2 =>
      by_cases hcond : Server.isOverloaded e2 ∧ ra < Server.maxRetries
      · have hne : ra ≠ k := by
          intro hrk
          subst hrk
          rw [hat] at hk
          cases hk
          rw [hno] at hcond
          exact Bool.false_ne_true hcond.1
        have hlt : ra < k := lt_of_le_of_ne hra hne
        simp only [Server.generateLoop, hat, if_pos hcond]
        have := ih (ra + 1) hlt
        omega
      · simp only [Server.generateLoop, hat, if_neg hcond]
        omega

/-- C3: under transient-overload errors only, the controller makes
between 1 and `maxRetries + 1 = 6` attempts; the i-th delay slept
equals `baseDelay * 2 ^ i + jitter_i` with the uniform jitter drawn
from [0, 0.5 s] (here [0, 500] ms), so ignoring jitter the
inter-attempt delays are monotonically non-decreasing; and an error not
classified as overloaded is never retried (the run stops at that
attempt).  The attempt bound and the delay formula hold for every
behaviour, overloaded-only or not. -/
theorem c3_retry_backoff (attempt : Nat → Server.AttemptResult) (jitter : Nat → ℤ)
    (hj : ∀ n, 0 ≤ jitter n ∧ jitter n ≤ 500) :
    1 ≤ Server.attemptsMade attempt jitter
    ∧ Server.attemptsMade attempt jitter ≤ Server.maxRetries + 1
    ∧ Server.sleepDurations (Server.generate attempt jitter) =
        (List.range (Server.attemptsMade attempt jitter - 1)).map
          (fun n => Server.baseDelay * 2 ^ n + jitter n)
    ∧ List.Pairwise (· ≤ ·)
        ((List.range (Server.attemptsMade attempt jitter - 1)).map
          (fun n => Server.baseDelay * 2 ^ n))
    ∧ (∀ d ∈ Server.sleepDurations (Server.generate attempt jitter), ∃ n,
         d = Server.delayFor n (jitter n)
         ∧ Server.baseDelay * 2 ^ n ≤ d ∧ d ≤ Server.baseDelay * 2 ^ n + 500)
    ∧ (∀ k e, attempt k = Server.AttemptResult.err e →
         Server.isOverloaded e = false →
         Server.attemptsMade attempt jitter ≤ k + 1) := by
  have hsleeps : Server.sleepDurations (Server.generate attempt jitter) =
      (List.range (Server.attemptsMade attempt jitter - 1)).map
        (fun n => Server.delayFor n (jitter n)) := by
    rw [Server.generate, Server.attemptsMade, Server.generateRun,
      generateLoop_sleeps attempt jitter 0 (Server.maxRetries + 1) (by omega),
      ← List.range_eq_range']
  refine ⟨?_, ?_, ?_, ?_, ?_, ?_⟩
  · exact generateLoop_pos attempt jitter 0 (Server.maxRetries + 1) (by omega)
  · exact generateLoop_le attempt jitter 0 (Server.maxRetries + 1)
  · exact hsleeps
  · rw [List.pairwise_map]
    refine (List.pairwise_lt_range _).imp ?_
    intro a b hab
    have h2 : (2 : ℤ) ^ a ≤ 2 ^ b := pow_le_pow_right₀ (by norm_num) (le_of_lt hab)
    have hbd : (0 : ℤ) ≤ Server.baseDelay := by norm_num [Server.baseDelay]
    exact mul_le_mul_of_nonneg_left h2 hbd
  · intro d hd
    rw [hsleeps] at hd
    rcases List.mem_map.mp hd with ⟨n, _, rfl⟩
    refine ⟨n, rfl, ?_, ?_⟩
    · exact le_add_of_nonneg_right (hj n).1
    · exact add_le_add_left (hj n).2 _
  · intro k e hk hno
    have := generateLoop_stop attempt jitter k e hk hno 0 (Server.maxRetries + 1)
      (Nat.zero_le k)
    simpa [Server.attemptsMade, Server.generateRun] using this

/-- Closed witness for `c3_retry_backoff`: every attempt raises an
overloaded error, zero jitter. -/
theorem c3_retry_backoff_witness :
    1 ≤ Server.attemptsMade (fun _ => Server.AttemptResult.err ⟨"Overloaded", none⟩)
          (fun _ => 0)
    ∧ Server.attemptsMade (fun _ => Server.AttemptResult.err ⟨"Overloaded", none⟩)
          (fun _ => 0) ≤ Server.maxRetries + 1
    ∧ Server.sleepDurations (Server.generate
          (fun _ => Server.AttemptResult.err ⟨"Overloaded", none⟩) (fun _ => 0)) =
        (List.range (Server.attemptsMade
            (fun _ => Server.AttemptResult.err ⟨"Overloaded", none⟩) (fun _ => 0) - 1)).map
          (fun n => Server.baseDelay * 2 ^ n + (fun _ => (0 : ℤ)) n)
    ∧ List.Pairwise (· ≤ ·)
        ((List.range (Server.attemptsMade
            (fun _ => Server.AttemptResult.err ⟨"Overloaded", none⟩) (fun _ => 0) - 1)).map
          (fun n => Server.baseDelay * 2 ^ n))
    ∧ (∀ d ∈ Server.sleepDurations (Server.generate
          (fun _ => Server.AttemptResult.err ⟨"Overloaded", none⟩) (fun _ => 0)), ∃ n,
         d = Server.delayFor n ((fun _ => (0 : ℤ)) n)
         ∧ Server.baseDelay * 2 ^ n ≤ d ∧ d ≤ Server.baseDelay * 2 ^ n + 500)
    ∧ (∀ k e, (fun _ => Server.AttemptResult.err ⟨"Overloaded", none⟩) k =
           Server.AttemptResult.err e →
         Server.isOverloaded e = false →
         Server.attemptsMade (fun _ => Server.AttemptResult.err ⟨"Overloaded", none⟩)
           (fun _ => 0) ≤ k + 1) :=
  c3_retry_backoff (fun _ => Server.AttemptResult.err ⟨"Overloaded", none⟩)
    (fun _ => 0) (fun n => ⟨le_refl 0, by norm_num⟩)

/-- C7: before every retry sleep exactly one info retry-notice event is
written (the trace shows the notice immediately preceding each sleep),
so with overloaded errors on the first two attempts and success on the
third, exactly two retry-notice info events are emitted, both before
the completion event. -/
theorem c7_retry_notice_per_sleep (attempt : Nat → Server.AttemptResult)
    (jitter : Nat → ℤ) (e0 e1 : Server.UpstreamError) (body : List Server.SEvent)
    (h0 : attempt 0 = Server.AttemptResult.err e0)
    (h1 : attempt 1 = Server.AttemptResult.err e1)
    (h2 : attempt 2 = Server.AttemptResult.ok body)
    (ho0 : Server.isOverloaded e0 = true) (ho1 : Server.isOverloaded e1 = true)
    (hb : body.all (fun ev => ! Server.isRetryNotice (Server.Action.emit ev)) = true) :
    Server.generate attempt jitter =
      Server.Action.emit (Server.SEvent.info
          (Server.retryNoticeMsg (Server.delayFor 0 (jitter 0)) 0)) ::
        Server.Action.sleep (Server.delayFor 0 (jitter 0)) ::
        Server.Action.emit (Server.SEvent.info
          (Server.retryNoticeMsg (Server.delayFor 1 (jitter 1)) 1)) ::
        Server.Action.sleep (Server.delayFor 1 (jitter 1)) ::
        (body.map Server.Action.emit ++ [Server.Action.emit Server.SEvent.complete])
    ∧ (Server.generate attempt jitter).countP Server.isRetryNotice = 2 := by
  have hshape : Server.generate attempt jitter =
      Server.Action.emit (Server.SEvent.info
          (Server.retryNoticeMsg (Server.delayFor 0 (jitter 0)) 0)) ::
        Server.Action.sleep (Server.delayFor 0 (jitter 0)) ::
        Server.Action.emit (Server.SEvent.info
          (Server.retryNoticeMsg (Server.delayFor 1 (jitter 1)) 1)) ::
        Server.Action.sleep (Server.delayFor 1 (jitter 1)) ::
        (body.map Server.Action.emit ++ [Server.Action.emit Server.SEvent.complete]) := by
    show (Server.generateLoop attempt jitter 0 (Server.maxRetries + 1)).1 = _
    rw [show Server.maxRetries + 1 = 5 + 1 from rfl]
    rw [show Server.generateLoop attempt jitter 0 (5 + 1) =
        (Server.Action.emit (Server.SEvent.info
            (Server.retryNoticeMsg (Server.delayFor 0 (jitter 0)) 0)) ::
          Server.Action.sleep (Server.delayFor 0 (jitter 0)) ::
          (Server.generateLoop attempt jitter 1 5).1,
         (Server.generateLoop attempt jitter 1 5).2 + 1) from by
      simp [Server.generateLoop, h0, ho0, Server.maxRetries]]
    rw [show Server.generateLoop attempt jitter 1 5 =
        (Server.Action.emit (Server.SEvent.info
            (Server.retryNoticeMsg (Server.delayFor 1 (jitter 1)) 1)) ::
          Server.Action.sleep (Server.delayFor 1 (jitter 1)) ::
          (Server.generateLoop attempt jitter 2 4).1,
         (Server.generateLoop attempt jitter 2 4).2 + 1) from by
      simp [Server.generateLoop, h1, ho1, Server.maxRetries]]
    rw [show Server.generateLoop attempt jitter 2 4 =
        (body.map Server.Action.emit ++ [Server.Action.emit Server.SEvent.complete], 1) from by
      simp [Server.generateLoop, h2]]
  refine ⟨hshape, ?_⟩
  rw [hshape]
  have hbody : (body.map Server.Action.emit).countP Server.isRetryNotice = 0 := by
    rw [List.countP_eq_zero]
    intro a ha
    rcases List.mem_map.mp ha with ⟨ev, hev, rfl⟩
    have := List.all_eq_true.mp hb ev hev
    simpa using this
  have hsl : ∀ d : ℤ, Server.isRetryNotice (Server.Action.sleep d) = false :=
    fun _ => rfl
  have hcm : Server.isRetryNotice (Server.Action.emit Server.SEvent.complete) = false :=
    rfl
  simp [List.countP_cons, List.countP_append, hbody,
    isRetryNotice_retryNoticeMsg, hsl, hcm]

/-- Closed witness for `c7_retry_notice_per_sleep`: overloaded twice,
then success with one content event. -/
theorem c7_retry_notice_per_sleep_witness :
    Server.generate
        (fun n => if n = 0 then Server.AttemptResult.err ⟨"Overloaded", none⟩
          else if n = 1 then Server.AttemptResult.err ⟨"Overloaded", none⟩
          else Server.AttemptResult.ok [Server.SEvent.content "X"]) (fun _ => 0) =
      Server.Action.emit (Server.SEvent.info
          (Server.retryNoticeMsg (Server.delayFor 0 0) 0)) ::
        Server.Action.sleep (Server.delayFor 0 0) ::
        Server.Action.emit (Server.SEvent.info
          (Server.retryNoticeMsg (Server.delayFor 1 0) 1)) ::
        Server.Action.sleep (Server.delayFor 1 0) ::
        ([Server.SEvent.content "X"].map Server.Action.emit ++
          [Server.Action.emit Server.SEvent.complete])
    ∧ (Server.generate
        (fun n => if n = 0 then Server.AttemptResult.err ⟨"Overloaded", none⟩
          else if n = 1 then Server.AttemptResult.err ⟨"Overloaded", none⟩
          else Server.AttemptResult.ok [Server.SEvent.content "X"])
        (fun _ => 0)).countP Server.isRetryNotice = 2 :=
  c7_retry_notice_per_sleep _ (fun _ => 0) ⟨"Overloaded", none⟩ ⟨"Overloaded", none⟩
    [Server.SEvent.content "X"] rfl rfl rfl (by decide) (by decide) (by decide)

/-- Events that are neither `stream_start`, `stream_end`, nor the
completion event: the chunk-loop and fallback events of
api/process-gemini-stream.py. -/
def AuxEvent (e : ProcessGeminiStream.GEvent) : Prop :=
  e = ProcessGeminiStream.GEvent.keepalive
  ∨ (∃ t, e = ProcessGeminiStream.GEvent.content t)
  ∨ (∃ m, e = ProcessGeminiStream.GEvent.error_ m)

theorem auxEvent_counts (l : List ProcessGeminiStream.GEvent)
    (h : ∀ e ∈ l, AuxEvent e) :
    l.countP ProcessGeminiStream.isStartEvent = 0
    ∧ l.countP ProcessGeminiStream.isEndEvent = 0
    ∧ l.countP ProcessGeminiStream.isCompleteEvt = 0 := by
  refine ⟨List.countP_eq_zero.mpr ?_, List.countP_eq_zero.mpr ?_,
    List.countP_eq_zero.mpr ?_⟩ <;>
  · intro e he
    rcases h e he with rfl | ⟨t, rfl⟩ | ⟨m, rfl⟩ <;>
      simp [ProcessGeminiStream.isStartEvent, ProcessGeminiStream.isEndEvent,
        ProcessGeminiStream.isCompleteEvt]

/-- One chunk-loop step yields only keepalive and content events. -/
theorem stepChunk_aux (st : ProcessGeminiStream.LoopState)
    (c : ProcessGeminiStream.TChunk) :
    ∀ e ∈ (ProcessGeminiStream.stepChunk st c).1, AuxEvent e := by
  intro e he
  simp only [ProcessGeminiStream.stepChunk] at he
  by_cases ht : c.text.getD "" = ""
  · rw [if_pos ht] at he
    split at he <;> simp at he
    subst he; exact Or.inl rfl
  · rw [if_neg ht] at he
    split at he
    · rcases List.mem_append.mp he with h1 | h2
      · split at h1 <;> simp at h1
        subst h1; exact Or.inl rfl
      · simp at h2
        subst h2; exact Or.inr (Or.inl ⟨_, rfl⟩)
    · split at he <;> simp at he
      subst he; exact Or.inl rfl

/-- The chunk loop of the streaming generator yields only keepalive and
content events. -/
theorem runChunks_aux (cs : List ProcessGeminiStream.TChunk)
    (st : ProcessGeminiStream.LoopState) :
    ∀ e ∈ (ProcessGeminiStream.runChunks cs st).1, AuxEvent e := by
  induction cs generalizing st with
  | nil => intro e he; cases he
  | cons c cs ih =>
    intro e he
    simp only [ProcessGeminiStream.runChunks] at he
    rcases List.mem_append.mp he with h1 | h2
    · exact stepChunk_aux st c e h1
    · exact ih _ e h2

/-- Count and last-event facts for any run of the
api/process-gemini-stream.py pipeline whose trace has the shape
"handler stream_start, generator stream_start, keepalive, auxiliary
events, completion". -/
theorem c1_counts_shape (mid : List ProcessGeminiStream.GEvent)
    (hmid : ∀ e ∈ mid, AuxEvent e) (h : String) (n : Nat) :
    ProcessGeminiStream.countStreamStart
        (ProcessGeminiStream.GEvent.streamStart ::
          ([ProcessGeminiStream.GEvent.streamStart,
            ProcessGeminiStream.GEvent.keepalive] ++
            (mid ++ [ProcessGeminiStream.GEvent.contentComplete h n]))) = 2
    ∧ ProcessGeminiStream.countStreamEnd
        (ProcessGeminiStream.GEvent.streamStart ::
          ([ProcessGeminiStream.GEvent.streamStart,
            ProcessGeminiStream.GEvent.keepalive] ++
            (mid ++ [ProcessGeminiStream.GEvent.contentComplete h n]))) = 0
    ∧ ProcessGeminiStream.countContentComplete
        (ProcessGeminiStream.GEvent.streamStart ::
          ([ProcessGeminiStream.GEvent.streamStart,
            ProcessGeminiStream.GEvent.keepalive] ++
            (mid ++ [ProcessGeminiStream.GEvent.contentComplete h n]))) = 1
    ∧ (ProcessGeminiStream.GEvent.streamStart ::
          ([ProcessGeminiStream.GEvent.streamStart,
            ProcessGeminiStream.GEvent.keepalive] ++
            (mid ++ [ProcessGeminiStream.GEvent.contentComplete h n]))).getLast? =
        some (ProcessGeminiStream.GEvent.contentComplete h n) := by
  obtain ⟨hs, he2, hc⟩ := auxEvent_counts mid hmid
  refine ⟨?_, ?_, ?_, ?_⟩
  · simp [ProcessGeminiStream.countStreamStart, List.countP_cons, List.countP_append,
      hs, ProcessGeminiStream.isStartEvent]
  · simp [ProcessGeminiStream.countStreamEnd, List.countP_cons, List.countP_append,
      he2, ProcessGeminiStream.isEndEvent]
  · simp [ProcessGeminiStream.countContentComplete, List.countP_cons,
      List.countP_append, hc, ProcessGeminiStream.isCompleteEvt]
  · rw [show ProcessGeminiStream.GEvent.streamStart ::
        ([ProcessGeminiStream.GEvent.streamStart,
          ProcessGeminiStream.GEvent.keepalive] ++
          (mid ++ [ProcessGeminiStream.GEvent.contentComplete h n])) =
      (ProcessGeminiStream.GEvent.streamStart ::
        ([ProcessGeminiStream.GEvent.streamStart,
          ProcessGeminiStream.GEvent.keepalive] ++ mid)) ++
        [ProcessGeminiStream.GEvent.contentComplete h n] from by
      simp]
    exact List.getLast?_concat _

/-- The last element of a list extended by a two-element literal. -/
theorem getLast?_append_pair {α : Type} (l : List α) (a b : α) :
    (l ++ [a, b]).getLast? = some b := by
  rw [show [a, b] = [a] ++ [b] from rfl, ← List.append_assoc, List.getLast?_concat]

open ProcessGeminiStream

/-- C1 counterexample: in api/process-gemini-stream.py the handler
writes its own `stream_start` (line 100) and the generator yields a
second one (line 205), and no `stream_end` event exists anywhere in the
file — so on a responsive upstream delivering one chunk the emitted
sequence begins with TWO `stream_start` events and contains ZERO
`stream_end` events, refuting "begins with exactly one stream_start ...
ends with exactly one stream_end". -/
theorem c1_counterexample :
    countStreamStart (doPostEvents
        ⟨Except.ok (), UpStream.ok [⟨some "Hi", 0⟩], Except.error "unused"⟩
        "Hello world" 0) = 2
    ∧ countStreamEnd (doPostEvents
        ⟨Except.ok (), UpStream.ok [⟨some "Hi", 0⟩], Except.error "unused"⟩
        "Hello world" 0) = 0
    ∧ doPostEvents ⟨Except.ok (), UpStream.ok [⟨some "Hi", 0⟩], Except.error "unused"⟩
        "Hello world" 0 =
      [GEvent.streamStart, GEvent.streamStart, GEvent.keepalive,
       GEvent.content "Hi", GEvent.contentComplete "Hi" 1] :=
  ⟨by decide, by decide, by decide⟩

/-- C1 (amended): for every request whose model acquisition succeeds
(responsive upstream), the emitted sequence begins with exactly TWO
`stream_start` events (one written by the transport handler at line
100, one yielded by the generator at line 205), contains NO
`stream_end` event, and contains exactly one completion event — the
`content` event carrying `"type": "message_complete"` — which is the
final event, regardless of stream success, mid-stream failure, or
fallback outcome. -/
theorem c1_lifecycle_amended (b : Behavior) (truncated : String) (startTime : ℤ)
    (hm : b.getModel = Except.ok ()) :
    countStreamStart (doPostEvents b truncated startTime) = 2
    ∧ countStreamEnd (doPostEvents b truncated startTime) = 0
    ∧ countContentComplete (doPostEvents b truncated startTime) = 1
    ∧ ∃ h n, (doPostEvents b truncated startTime).getLast? =
        some (GEvent.contentComplete h n) := by
  cases hstream : b.stream with
  | ok chunks =>
    obtain ⟨hs, he, hc⟩ :=
      auxEvent_counts _ (runChunks_aux chunks (initState startTime))
    refine ⟨?_, ?_, ?_, ?_⟩
    · simp [doPostEvents, geminiStreamGenerator, hm, hstream,
        countStreamStart, List.countP_cons, List.countP_append, hs, isStartEvent,
        apply_ite (List.countP isStartEvent)]
    · simp [doPostEvents, geminiStreamGenerator, hm, hstream,
        countStreamEnd, List.countP_cons, List.countP_append, he, isEndEvent,
        apply_ite (List.countP isEndEvent)]
    · simp [doPostEvents, geminiStreamGenerator, hm, hstream,
        countContentComplete, List.countP_cons, List.countP_append, hc,
        isCompleteEvt, apply_ite (List.countP isCompleteEvt)]
    · simp only [doPostEvents, geminiStreamGenerator, hm, hstream]
      rw [← List.cons_append, ← List.append_assoc]
      exact ⟨_, _, List.getLast?_concat _⟩
  | failAfter chunks err =>
    obtain ⟨hs, he, hc⟩ :=
      auxEvent_counts _ (runChunks_aux chunks (initState startTime))
    cases hsf : b.syncFallback with
    | ok resp =>
      refine ⟨?_, ?_, ?_, ?_⟩
      · simp [doPostEvents, geminiStreamGenerator, hm, hstream, hsf,
          countStreamStart, List.countP_cons, List.countP_append, hs, isStartEvent,
          apply_ite (List.countP isStartEvent)]
      · simp [doPostEvents, geminiStreamGenerator, hm, hstream, hsf,
          countStreamEnd, List.countP_cons, List.countP_append, he, isEndEvent,
          apply_ite (List.countP isEndEvent)]
      · simp [doPostEvents, geminiStreamGenerator, hm, hstream, hsf,
          countContentComplete, List.countP_cons, List.countP_append, hc,
          isCompleteEvt, apply_ite (List.countP isCompleteEvt)]
      · by_cases hh : (runChunks chunks (initState startTime)).2.html = ""
        · simp only [doPostEvents, geminiStreamGenerator, hm, hstream, hsf, hh,
            ite_true, ne_eq, not_true_eq_false]
          rw [← List.cons_append, ← List.append_assoc]
          exact ⟨_, _, List.getLast?_concat _⟩
        · simp only [doPostEvents, geminiStreamGenerator, hm, hstream, hsf,
            if_neg hh]
          rw [← List.cons_append, ← List.append_assoc]
          exact ⟨_, _, List.getLast?_concat _⟩
    | error fe =>
      refine ⟨?_, ?_, ?_, ?_⟩
      · simp [doPostEvents, geminiStreamGenerator, hm, hstream, hsf,
          countStreamStart, List.countP_cons, List.countP_append, hs, isStartEvent,
          apply_ite (List.countP isStartEvent)]
      · simp [doPostEvents, geminiStreamGenerator, hm, hstream, hsf,
          countStreamEnd, List.countP_cons, List.countP_append, he, isEndEvent,
          apply_ite (List.countP isEndEvent)]
      · simp [doPostEvents, geminiStreamGenerator, hm, hstream, hsf,
          countContentComplete, List.countP_cons, List.countP_append, hc,
          isCompleteEvt, apply_ite (List.countP isCompleteEvt)]
      · by_cases hh : (runChunks chunks (initState startTime)).2.html = ""
        · simp only [doPostEvents, geminiStreamGenerator, hm, hstream, hsf, hh,
            ite_true]
          rw [← List.cons_append, ← List.append_assoc]
          exact ⟨_, _, getLast?_append_pair _ _ _⟩
        · simp only [doPostEvents, geminiStreamGenerator, hm, hstream, hsf,
            if_neg hh]
          rw [← List.cons_append, ← List.append_assoc]
          exact ⟨_, _, List.getLast?_concat _⟩

/-- Closed witness for `c1_lifecycle_amended` at a one-chunk behaviour. -/
theorem c1_lifecycle_amended_witness :
    countStreamStart (doPostEvents
        ⟨Except.ok (), UpStream.ok [⟨some "Hi", 0⟩], Except.error "unused"⟩
        "Hello world" 0) = 2
    ∧ countStreamEnd (doPostEvents
        ⟨Except.ok (), UpStream.ok [⟨some "Hi", 0⟩], Except.error "unused"⟩
        "Hello world" 0) = 0
    ∧ countContentComplete (doPostEvents
        ⟨Except.ok (), UpStream.ok [⟨some "Hi", 0⟩], Except.error "unused"⟩
        "Hello world" 0) = 1
    ∧ ∃ h n, (doPostEvents
        ⟨Except.ok (), UpStream.ok [⟨some "Hi", 0⟩], Except.error "unused"⟩
        "Hello world" 0).getLast? = some (GEvent.contentComplete h n) :=
  c1_lifecycle_amended
    ⟨Except.ok (), UpStream.ok [⟨some "Hi", 0⟩], Except.error "unused"⟩
    "Hello world" 0 rfl
